import Mathlib

/-!
Verification of the structural-fact extraction engine in `src/context.py`
(class `CodeContextExtractor`).  The Python source works on strings via
regular expressions; here each regular expression is embedded as a dedicated
character-list scanner whose doc comment quotes the source pattern and line
numbers.  Python `str` values are modelled as `String`, lists as `List`,
dictionaries as insertion-ordered association lists (`List (key × value)`),
and sets as duplicate-free lists.  Machine integers are `Nat`/`Int` (Python
integers are unbounded, so no wrap-around modelling is needed).
-/

namespace ContextExtractor

/-! ## String utilities mirroring Python `str` helpers -/

/-- Opening curly brace character (written via its code point to keep string
literals free of braces). -/
def obrace : Char := Char.ofNat 123

/-- Closing curly brace character. -/
def cbrace : Char := Char.ofNat 125

/-- Uppercase every character, as Python `str.upper` does for ASCII input. -/
def charsUpper (cs : List Char) : List Char := cs.map Char.toUpper

/-- Leftmost index of `pat` in `cs` (Python `str.find`, `none` for -1). -/
def findSubAux (pat : List Char) : List Char → Nat → Option Nat
  | [], i => if pat.isEmpty then some i else none
  | c :: rest, i =>
    if pat.isPrefixOf (c :: rest) then some i else findSubAux pat rest (i + 1)

/-- Python `sub in s` substring test. -/
def containsSub (s pat : String) : Bool := (findSubAux pat.toList s.toList 0).isSome

/-- Leftmost index of `pat` in `s`. -/
def findSub (s pat : String) : Option Nat := findSubAux pat.toList s.toList 0

/-- Python `str.strip('`"')`: remove leading and trailing backticks and
double quotes (used throughout `extract_database_schema`). -/
def stripQuotes (s : String) : String :=
  let isQ : Char → Bool := fun c => c == '`' || c == '"'
  String.mk (((s.toList.dropWhile isQ).reverse.dropWhile isQ).reverse)

/-- Python `str.strip()`: remove leading and trailing whitespace.  (Defined
here instead of using `String.trim` so the whole development reduces inside
the kernel.) -/
def strTrim (s : String) : String :=
  String.mk (((s.toList.dropWhile Char.isWhitespace).reverse.dropWhile
    Char.isWhitespace).reverse)

/-- Uppercase a string (Python `str.upper` for ASCII input). -/
def strUpper (s : String) : String := String.mk (charsUpper s.toList)

/-- Python `str.endswith`. -/
def strEndsWith (s suffix : String) : Bool := suffix.toList.isSuffixOf s.toList

/-- Split a character list at every character satisfying `p`, keeping empty
pieces, like `str.split(sep)` for a one-character separator. -/
def splitByChar (p : Char → Bool) : List Char → List (List Char)
  | [] => [[]]
  | c :: rest =>
    match splitByChar p rest with
    | [] => if p c then [[], []] else [[c]]
    | piece :: pieces =>
      if p c then [] :: piece :: pieces else (c :: piece) :: pieces

/-- Python `s.split(sep)` for a one-character separator (keeps empties). -/
def splitOnChar (c : Char) (s : String) : List String :=
  (splitByChar (fun x => x == c) s.toList).map String.mk

/-- Python `str.split()` with no argument: split on whitespace runs and drop
empty pieces. -/
def splitWs (s : String) : List String :=
  ((splitByChar Char.isWhitespace s.toList).map String.mk).filter (fun t => t ≠ "")

/-- Python `str.rstrip(',')`. -/
def rstripComma (s : String) : String :=
  String.mk ((s.toList.reverse.dropWhile (fun c => c == ',')).reverse)

/-- Generic left-to-right non-overlapping scan, the shape of `re.finditer`:
`f` attempts a match at the current position and returns the matched value
together with the number of characters consumed (at least 1 is consumed so
the scan advances).  `fuel` starts at the length of the text. -/
def scanAux (f : List Char → Option (α × Nat)) : Nat → List Char → List α
  | 0, _ => []
  | _, [] => []
  | fuel + 1, c :: rest =>
    match f (c :: rest) with
    | some (a, k) => a :: scanAux f fuel ((c :: rest).drop (max k 1))
    | none => scanAux f fuel rest

/-- Run a matcher over a text, `re.finditer` style. -/
def scanWith (f : List Char → Option (α × Nat)) (s : List Char) : List α :=
  scanAux f s.length s

/-- Leftmost match of a positional matcher, `re.search` style. -/
def searchWith (f : List Char → Option α) : List Char → Option α
  | [] => none
  | c :: rest =>
    match f (c :: rest) with
    | some a => some a
    | none => searchWith f rest

/-- Python non-overlapping `str.count(pat)` for a nonempty `pat`. -/
def countSub (s pat : String) : Nat :=
  (scanWith (fun t => if pat.toList.isPrefixOf t then some ((), pat.length) else none)
    s.toList).length

/-! ### Tiny matcher combinators (each regex below is built from these) -/

/-- Match a literal case-sensitively, returning the remaining characters. -/
def lit (pat : List Char) (s : List Char) : Option (List Char) :=
  if pat.isPrefixOf s then some (s.drop pat.length) else none

/-- Match a literal case-insensitively (`re.IGNORECASE`); `pat` is given in
uppercase. -/
def litCI (pat : List Char) (s : List Char) : Option (List Char) :=
  if charsUpper (s.take pat.length) == pat && pat.length ≤ s.length then
    some (s.drop pat.length)
  else none

/-- Match `\s+`: at least one whitespace character, consumed greedily. -/
def ws1 : List Char → Option (List Char)
  | c :: rest => if c.isWhitespace then some (rest.dropWhile Char.isWhitespace) else none
  | [] => none

/-- Match `\s*`. -/
def skipWs (s : List Char) : List Char := s.dropWhile Char.isWhitespace

/-- Greedily take a character class: returns (matched run, rest). -/
def takeClass (p : Char → Bool) (s : List Char) : List Char × List Char :=
  (s.takeWhile p, s.dropWhile p)

/-- Word character class `\w` (ASCII-oriented approximation of `re`'s). -/
def isWordChar (c : Char) : Bool := c.isAlphanum || c == '_'

/-- Character class `[`"\w]` used for table names in the schema patterns. -/
def isNameChar (c : Char) : Bool := isWordChar c || c == '`' || c == '"'

/-- Match two keywords separated by `\s+`, case-insensitively:
the shape `KW1\s+KW2` that appears in the schema constraint patterns. -/
def kw2 (a b : List Char) (s : List Char) : Option (List Char) :=
  (litCI a s).bind fun r => (ws1 r).bind fun r2 => litCI b r2

/-- Index of the last occurrence of `c` in `s`. -/
def lastIdxOf (c : Char) (s : List Char) : Option Nat :=
  match (s.reverse.findIdx? (fun x => x == c)) with
  | some k => some (s.length - 1 - k)
  | none => none

/-! ## Schema recognizer: `extract_database_schema` (context.py lines 865-1022) -/

/-- One column record produced by the schema recognizer (a Python dict with
keys `name`, `type`, `nullable` and optionally `default`). -/
structure ColumnInfo where
  name : String
  colType : String
  nullable : Bool
  defaultVal : Option String
deriving Repr, DecidableEq

/-- One foreign-key record (dict with keys `column`, `ref_table`,
`ref_column`), context.py lines 950-954. -/
structure FKInfo where
  column : String
  ref_table : String
  ref_column : String
deriving Repr, DecidableEq

/-- One index record (dict with keys `name`, `columns`, `unique`),
context.py lines 1002-1006. -/
structure IndexData where
  name : String
  columns : List String
  unique : Bool
deriving Repr, DecidableEq

/-- One table schema record, context.py lines 1012-1020 (`description` is
always `None` in the source and is omitted here). -/
structure SchemaInfo where
  table_name : String
  columns : List ColumnInfo
  primary_keys : List String
  foreign_keys : List FKInfo
  indices : List IndexData
  file_path : String
deriving Repr, DecidableEq

/-- Lookup in a Python dict modelled as an insertion-ordered association
list where a later binding for the same key overwrites an earlier one. -/
def dictGet (d : List (String × String)) (k : String) : Option String :=
  (d.reverse.find? (fun kv => kv.1 == k)).map (fun kv => kv.2)

/-- Matcher for the constant-definition pattern (context.py line 870):
`(?:const|let|var|export\s+const)\s+(\w+)_DATABASE_NAME\s*=\s*['"]([^'"]+)['"]`
(case-sensitive; no `re.IGNORECASE` flag at line 872).  Returns the captured
prefix and string value and the number of characters consumed. -/
def dbNameParse (s : List Char) : Option ((String × String) × Nat) := do
  let r1 ←
    (lit "const".toList s) <|> (lit "let".toList s) <|> (lit "var".toList s) <|>
      ((lit "export".toList s).bind fun r => (ws1 r).bind fun r2 => lit "const".toList r2)
  let r2 ← ws1 r1
  let (w, r3) := takeClass isWordChar r2
  let suffix := "_DATABASE_NAME".toList
  if suffix.isSuffixOf w && suffix.length < w.length then
    let g1 := w.take (w.length - suffix.length)
    let r4 := skipWs r3
    match r4 with
    | '=' :: r5 =>
      let r6 := skipWs r5
      match r6 with
      | q :: r7 =>
        if q == '\'' || q == '"' then
          let (v, r8) := takeClass (fun c => c != '\'' && c != '"') r7
          match r8 with
          | q2 :: _ =>
            if (q2 == '\'' || q2 == '"') && !v.isEmpty then
              some ((String.mk g1, String.mk v), s.length - r8.length + 1)
            else none
          | [] => none
        else none
      | [] => none
    | _ => none
  else none

/-- Collect the `db_names` dictionary (context.py lines 871-876): each match
stores both `prefix` and `prefix ++ "_DATABASE_NAME"` as keys. -/
def collectDbNames (content : String) : List (String × String) :=
  (scanWith dbNameParse content.toList).foldl
    (fun acc pv => acc ++ [(pv.1, pv.2), (pv.1 ++ "_DATABASE_NAME", pv.2)]) []

/-- Matcher for the table-definition pattern (context.py line 880):
`CREATE\s+TABLE\s+(?:IF\s+NOT\s+EXISTS\s+)?(?:([`"\w]+)|[$]{([^}]+)})\s*\(([^;]+)\)`
with `re.IGNORECASE | re.DOTALL`.  Returns `(group1?, group2?, group3)` and
the consumed length.  The greedy `([^;]+)\)` tail is realised as: take the
semicolon-free region and match the final `)` inside it. -/
def tableStmtParse (s : List Char) :
    Option ((Option String × Option String × String) × Nat) := do
  let r1 ← kw2 "CREATE".toList "TABLE".toList s
  let r2 ← ws1 r1
  let r3 :=
    match (kw2 "IF".toList "NOT".toList r2).bind
        (fun t => (ws1 t).bind fun t2 => (litCI "EXISTS".toList t2).bind ws1) with
    | some t => t
    | none => r2
  let (g1, g2, r4) ←
    (match r3 with
     | '$' :: d :: r5 =>
       if d == obrace then
         let (v, r6) := takeClass (fun c => c != cbrace) r5
         match r6 with
         | _ :: r7 => if v.isEmpty then none else some (none, some (String.mk v), r7)
         | [] => none
       else
         let (n, r6) := takeClass isNameChar r3
         if n.isEmpty then none else some (some (String.mk n), none, r6)
     | _ =>
       let (n, r6) := takeClass isNameChar r3
       if n.isEmpty then none else some (some (String.mk n), none, r6))
  let r7 := skipWs r4
  match r7 with
  | '(' :: r8 =>
    let region := r8.takeWhile (fun c => c != ';')
    match lastIdxOf ')' region with
    | some j =>
      if j = 0 then none
      else
        let body := region.take j
        some ((g1, g2, String.mk body), s.length - r8.length + j + 1)
    | none => none
  | _ => none

/-- Comma-splitting of the column body while tracking parenthesis nesting
depth (context.py lines 904-919), transcribed from the character loop. -/
def splitColumnLines (columnsDef : String) : List String := Id.run do
  let mut colLines : List String := []
  let mut current : String := ""
  let mut paren : Int := 0
  for c in columnsDef.toList do
    current := current.push c
    if c == '(' then
      paren := paren + 1
    else if c == ')' then
      paren := paren - 1
    else if c == ',' && paren == 0 then
      colLines := colLines ++ [rstripComma (strTrim current)]
      current := ""
  if strTrim current ≠ "" then
    colLines := colLines ++ [strTrim current]
  return colLines

/-- Constraint-line test (context.py line 924):
`re.match(r'^\s*(?:CONSTRAINT|PRIMARY\s+KEY|FOREIGN\s+KEY|UNIQUE|CHECK)', line, re.IGNORECASE)`. -/
def isConstraintLine (line : String) : Bool :=
  let s := skipWs line.toList
  (litCI "CONSTRAINT".toList s).isSome ||
  (kw2 "PRIMARY".toList "KEY".toList s).isSome ||
  (kw2 "FOREIGN".toList "KEY".toList s).isSome ||
  (litCI "UNIQUE".toList s).isSome ||
  (litCI "CHECK".toList s).isSome

/-- Matcher for `PRIMARY\s+KEY\s*\(([^)]+)\)` (context.py line 927),
returning the captured column list text. -/
def pkParse (s : List Char) : Option String := do
  let r1 ← kw2 "PRIMARY".toList "KEY".toList s
  let r2 := skipWs r1
  match r2 with
  | '(' :: r3 =>
    let (cap, rest) := takeClass (fun c => c != ')') r3
    match rest with
    | _ :: _ => if cap.isEmpty then none else some (String.mk cap)
    | [] => none
  | _ => none

/-- Matcher for the foreign-key pattern (context.py line 933):
`FOREIGN\s+KEY\s*\(([^)]+)\)\s*REFERENCES\s*([`"\w]+|\${[^}]+})\s*\(([^)]+)\)`
returning (local columns text, referenced table raw text, referenced columns
text). -/
def fkParse (s : List Char) : Option (String × String × String) := do
  let r1 ← kw2 "FOREIGN".toList "KEY".toList s
  let r2 := skipWs r1
  match r2 with
  | '(' :: r3 =>
    let (cap1, rest1) := takeClass (fun c => c != ')') r3
    match rest1 with
    | _ :: r4 =>
      if cap1.isEmpty then none
      else
        let r5 := skipWs r4
        let r6 ← litCI "REFERENCES".toList r5
        let r7 := skipWs r6
        let (tbl, r8) ←
          (match r7 with
           | '$' :: d :: r9 =>
             if d == obrace then
               let (v, r10) := takeClass (fun c => c != cbrace) r9
               match r10 with
               | _ :: r11 =>
                 if v.isEmpty then none
                 else some (String.mk ('$' :: obrace :: v ++ [cbrace]), r11)
               | [] => none
             else
               let (n, r10) := takeClass isNameChar r7
               if n.isEmpty then none else some (String.mk n, r10)
           | _ =>
             let (n, r10) := takeClass isNameChar r7
             if n.isEmpty then none else some (String.mk n, r10))
        let r12 := skipWs r8
        match r12 with
        | '(' :: r13 =>
          let (cap2, rest2) := takeClass (fun c => c != ')') r13
          match rest2 with
          | _ :: _ => if cap2.isEmpty then none else some (cap1.asString, tbl, cap2.asString)
          | [] => none
        | _ => none
    | [] => none
  | _ => none

/-- Referenced-table resolution inside a foreign key (context.py lines
936-944): strip quotes, then resolve `${VAR}` through `db_names` or mark it
as a variable. -/
def resolveRefTable (dbNames : List (String × String)) (raw : String) : String :=
  let rt := stripQuotes raw
  let cs := rt.toList
  match cs with
  | '$' :: d :: rest =>
    if d == obrace && rest ≠ [] && rest.getLast? == some cbrace then
      let varName := String.mk (rest.dropLast)
      match dictGet dbNames varName with
      | some v => v
      | none => varName ++ " (variable)"
    else rt
  | _ => rt

/-- Per-local-column foreign-key record emission (context.py lines 948-954):
`ref_col = ref_cols[i] if i < len(ref_cols) else ref_cols[-1]`.  In Python
`ref_cols[-1]` on an empty list would raise, but `ref_cols` always comes from
a nonempty regex capture; the `getLastD` default is never used under that
invariant. -/
def foreignKeyRecords (fkCols : List String) (refTable : String)
    (refCols : List String) : List FKInfo :=
  (List.range fkCols.length).map fun i =>
    { column := fkCols.getD i ""
      ref_table := refTable
      ref_column := if i < refCols.length then refCols.getD i "" else refCols.getLastD "" }

/-- Matcher for `DEFAULT\s+([^,\s]+)` (context.py line 977, `re.IGNORECASE`). -/
def defaultParse (s : List Char) : Option String := do
  let r1 ← litCI "DEFAULT".toList s
  let r2 ← ws1 r1
  let (cap, _) := takeClass (fun c => !c.isWhitespace && c != ',') r2
  if cap.isEmpty then none else some (String.mk cap)

/-- Process one constraint line (context.py lines 925-954), returning the
primary keys and foreign keys it contributes.  Mirrors the source: primary
key columns are split on `,` and stripped of backticks/quotes only (no
whitespace stripping, as in line 929). -/
def processConstraintLine (dbNames : List (String × String)) (line : String) :
    List String × List FKInfo :=
  let pks :=
    match searchWith pkParse line.toList with
    | some capture => (splitOnChar ',' capture).map stripQuotes
    | none => []
  let fks :=
    match searchWith fkParse line.toList with
    | some (c1, rawTable, c3) =>
      let fkCols := (splitOnChar ',' c1).map stripQuotes
      let refTable := resolveRefTable dbNames rawTable
      let refCols := (splitOnChar ',' c3).map stripQuotes
      foreignKeyRecords fkCols refTable refCols
    | none => []
  (pks, fks)

/-- Process one regular column-definition line (context.py lines 956-981).
Returns the column record and whether the line declares a primary key. -/
def parseColumnLine (line : String) : Option (ColumnInfo × Bool) :=
  match splitWs line with
  | p0 :: p1 :: _ =>
    let colName := stripQuotes p0
    let colType := (splitOnChar '(' p1).headD p1
    let up := strUpper line
    let nullable := !containsSub up "NOT NULL"
    let isPK := containsSub up "PRIMARY KEY"
    let dflt := if containsSub up "DEFAULT" then searchWith defaultParse line.toList else none
    some ({ name := colName, colType := colType, nullable := nullable, defaultVal := dflt }, isPK)
  | _ => none

/-- Fold over the split column lines (context.py lines 922-981), accumulating
columns, primary keys and foreign keys in source order. -/
def processColumnLines (dbNames : List (String × String)) (colLines : List String) :
    List ColumnInfo × List String × List FKInfo :=
  colLines.foldl
    (fun acc line =>
      let (cols, pks, fks) := acc
      if isConstraintLine line then
        let (newPks, newFks) := processConstraintLine dbNames line
        (cols, pks ++ newPks, fks ++ newFks)
      else
        match parseColumnLine line with
        | some (col, isPK) =>
          (cols ++ [col], pks ++ (if isPK then [col.name] else []), fks)
        | none => (cols, pks, fks))
    ([], [], [])

/-- Matcher for the index pattern (context.py line 985):
`CREATE\s+(?:UNIQUE\s+)?INDEX\s+(?:IF\s+NOT\s+EXISTS\s+)?(\w+)\s+ON\s+(?:([`"\w]+)|[$]{([^}]+)})\s*\(([^)]+)\)`
with `re.IGNORECASE`.  Returns (index name, group2?, group3?, columns text,
whole matched text) with consumed length; the matched text is kept because
line 1000 checks `'UNIQUE' in idx_match.group(0).upper()`. -/
def indexStmtParse (s : List Char) :
    Option ((String × Option String × Option String × String × String) × Nat) := do
  let r1 ← litCI "CREATE".toList s
  let r2 ← ws1 r1
  let r3 :=
    match (litCI "UNIQUE".toList r2).bind ws1 with
    | some t => t
    | none => r2
  let r4 ← litCI "INDEX".toList r3
  let r5 ← ws1 r4
  let r6 :=
    match (kw2 "IF".toList "NOT".toList r5).bind
        (fun t => (ws1 t).bind fun t2 => (litCI "EXISTS".toList t2).bind ws1) with
    | some t => t
    | none => r5
  let (idxName, r7) := takeClass isWordChar r6
  if idxName.isEmpty then none
  else do
    let r8 ← ws1 r7
    let r9 ← litCI "ON".toList r8
    let r10 ← ws1 r9
    let (g2, g3, r11) ←
      (match r10 with
       | '$' :: d :: r12 =>
         if d == obrace then
           let (v, r13) := takeClass (fun c => c != cbrace) r12
           match r13 with
           | _ :: r14 => if v.isEmpty then none else some (none, some (String.mk v), r14)
           | [] => none
         else
           let (n, r13) := takeClass isNameChar r10
           if n.isEmpty then none else some (some (String.mk n), none, r13)
       | _ =>
         let (n, r13) := takeClass isNameChar r10
         if n.isEmpty then none else some (some (String.mk n), none, r13))
    let r15 := skipWs r11
    match r15 with
    | '(' :: r16 =>
      let (cap, rest) := takeClass (fun c => c != ')') r16
      match rest with
      | _ :: _ =>
        if cap.isEmpty then none
        else
          let consumed := s.length - r16.length + cap.length + 1
          let whole := String.mk (s.take consumed)
          some ((String.mk idxName, g2, g3, String.mk cap, whole), consumed)
      | [] => none
    | _ => none

/-- Index association for one table (context.py lines 983-1006). -/
def indicesForTable (dbNames : List (String × String)) (content : String)
    (tableName : String) : List IndexData :=
  (scanWith indexStmtParse content.toList).foldl
    (fun acc m =>
      let (idxName, g2, g3, colsText, whole) := m
      let idxTable0 := match g2 with | some t => t | none => g3.getD ""
      let idxTable :=
        if g2.isNone then
          match dictGet dbNames idxTable0 with
          | some v => v
          | none => idxTable0
        else idxTable0
      let varMatch :=
        containsSub tableName " (variable)" &&
        strEndsWith tableName " (variable)" &&
        idxTable == String.mk (tableName.toList.take (tableName.length - 11))
      if idxTable == tableName || varMatch then
        acc ++ [{ name := idxName
                  columns := (splitOnChar ',' colsText).map stripQuotes
                  unique := containsSub (strUpper whole) "UNIQUE" }]
      else acc)
    []

/-- The schema recognizer (context.py lines 865-1022): collects the database
name constants, finds every table-definition statement, parses its body into
columns/constraints, and associates index statements by resolved table name. -/
def extract_database_schema (content : String) (filePath : String) : List SchemaInfo :=
  let dbNames := collectDbNames content
  (scanWith tableStmtParse content.toList).map fun m =>
    let (g1, g2, bodyRaw) := m
    let rawName := match g1 with | some n => n | none => g2.getD ""
    let tableName :=
      if g1.isNone then
        match dictGet dbNames rawName with
        | some v => v
        | none => rawName ++ " (variable)"
      else stripQuotes rawName
    let columnsDef := strTrim bodyRaw
    let (cols, pks, fks) := processColumnLines dbNames (splitColumnLines columnsDef)
    { table_name := tableName
      columns := cols
      primary_keys := pks
      foreign_keys := fks
      indices := indicesForTable dbNames content tableName
      file_path := filePath }

/-! ## Component recognizer: `extract_react_component` (context.py lines 161-267)

The surrounding loop iterates regex matches of the functional-component
signature; the definitions below embed the body of that loop for one match,
parameterised by the matched component name and its start offset, under the
default configuration (all `analyze_*` flags are `False`, so the optional
heuristic passes at lines 227-254 are skipped). -/

/-- One prop record (context.py line 189): name and type, `'any'` when the
type annotation is absent. -/
structure PropInfo where
  name : String
  ptype : String
deriving Repr, DecidableEq

/-- One entry of the global `component_complexity` list (context.py lines
260-264). -/
structure FlaggedEntry where
  name : String
  file_path : String
  complexity : Nat
deriving Repr, DecidableEq

/-- The functional-component record built at context.py lines 217-225
(`type` is always `'functional'` on this path and is omitted). -/
structure ComponentData where
  name : String
  file_path : String
  props : List PropInfo
  hooks_used : List String
  api_calls : List String
  complexity : Nat
deriving Repr, DecidableEq

/-- Matcher for the hook-usage pattern `use[A-Z][a-zA-Z0-9]*` (context.py
line 193): literal `use`, an uppercase letter, then a greedy alphanumeric
run (note: no underscore in the tail class). -/
def hookUsageParse (s : List Char) : Option (String × Nat) := do
  let r1 ← lit "use".toList s
  match r1 with
  | u :: r2 =>
    if u.isUpper then
      let (run, _) := takeClass Char.isAlphanum r2
      let m := "use".toList ++ u :: run
      some (String.mk m, m.length)
    else none
  | [] => none

/-- All hook-usage matches in a text, in `re.finditer` order. -/
def hookMatches (cs : List Char) : List String := scanWith hookUsageParse cs

/-- HTTP verb alternation `(?:get|post|put|delete|patch)` (case-sensitive). -/
def verbParse (s : List Char) : Option (List Char × List Char) :=
  (["get", "post", "put", "delete", "patch"].map String.toList).firstM fun v =>
    (lit v s).map fun r => (v, r)

/-- Matcher for API pattern 1 (context.py line 201):
`([a-zA-Z0-9_]+)\.(?:get|post|put|delete|patch)\(`. -/
def apiPat1 (s : List Char) : Option (String × Nat) := do
  let (run, r1) := takeClass isWordChar s
  if run.isEmpty then none
  else
    match r1 with
    | '.' :: r2 => do
      let (v, r3) ← verbParse r2
      match r3 with
      | '(' :: _ =>
        let m := run ++ '.' :: v ++ ['(']
        some (String.mk m, m.length)
      | _ => none
    | _ => none

/-- Matcher for API pattern 2 (context.py line 202): `fetch\(`. -/
def apiPat2 (s : List Char) : Option (String × Nat) :=
  (lit "fetch(".toList s).map fun _ => ("fetch(", 6)

/-- Matcher for API pattern 3 (context.py line 203):
`axios\.(?:get|post|put|delete|patch)\(`. -/
def apiPat3 (s : List Char) : Option (String × Nat) := do
  let r1 ← lit "axios.".toList s
  let (v, r2) ← verbParse r1
  match r2 with
  | '(' :: _ =>
    let m := "axios.".toList ++ v ++ ['(']
    some (String.mk m, m.length)
  | _ => none

/-- Matcher for API pattern 4 (context.py line 204): `api\.(?:[a-zA-Z0-9_]+)\(`. -/
def apiPat4 (s : List Char) : Option (String × Nat) := do
  let r1 ← lit "api.".toList s
  let (run, r2) := takeClass isWordChar r1
  if run.isEmpty then none
  else
    match r2 with
    | '(' :: _ =>
      let m := "api.".toList ++ run ++ ['(']
      some (String.mk m, m.length)
    | _ => none

/-- All API-call matches of the four pattern families over the whole file
text, concatenated in pattern order (context.py lines 199-211); an
occurrence matching several families is reported once per family. -/
def apiMatches (content : String) : List String :=
  scanWith apiPat1 content.toList ++ scanWith apiPat2 content.toList ++
  scanWith apiPat3 content.toList ++ scanWith apiPat4 content.toList

/-- The literal `"return {"` built without brace characters in the string. -/
def returnBraceLit : String := "return " ++ String.mk [obrace]

/-- JSX start search (context.py lines 177-179): `content.find('return (',
start_pos)`, falling back to `content.find('return {', start_pos)`. -/
def jsxStart (content : String) (startPos : Nat) : Option Nat :=
  match findSubAux "return (".toList (content.toList.drop startPos) 0 with
  | some k => some (startPos + k)
  | none =>
    match findSubAux returnBraceLit.toList (content.toList.drop startPos) 0 with
    | some k => some (startPos + k)
    | none => none

/-- The region scanned for hook usages (context.py line 193):
`content[:jsx_start] if jsx_start != -1 else content`. -/
def hookRegion (content : String) (startPos : Nat) : List Char :=
  match jsxStart content startPos with
  | some j => content.toList.take j
  | none => content.toList

/-- Matcher for one prop inside the props text (context.py line 188):
`(\w+)(?::\s*([^,\s]+))?`. -/
def propParse (s : List Char) : Option (PropInfo × Nat) :=
  let (run, r1) := takeClass isWordChar s
  if run.isEmpty then none
  else
    let basic : PropInfo × Nat := ({ name := String.mk run, ptype := "any" }, run.length)
    match r1 with
    | ':' :: r2 =>
      let r3 := skipWs r2
      let (ty, _) := takeClass (fun c => !c.isWhitespace && c != ',') r3
      if ty.isEmpty then some basic
      else
        some ({ name := String.mk run, ptype := String.mk ty },
          run.length + 1 + (r2.length - r3.length) + ty.length)
    | _ => some basic

/-- Props-list match (context.py line 182):
`re.search(r'\(\s*(?:{\s*([^}]*)\s*}|\s*props\s*|\s*([^)]*)\s*)', window)`
over the window `content[start_pos:start_pos+500]`.  Returns the chosen
capture text (group 1 or group 2), `none` standing for Python's `''` when
the `props` alternative matched. -/
def propsTextParse (s : List Char) : Option (List Char) :=
  match s with
  | '(' :: r =>
    let r2 := skipWs r
    match r2 with
    | c :: r3 =>
      if c == obrace then
        let r4 := skipWs r3
        let (cap, rest) := takeClass (fun x => x != cbrace) r4
        match rest with
        | _ :: _ => some cap
        | [] => some ((takeClass (fun x => x != ')') r2).1)
      else
        match lit "props".toList r2 with
        | some _ => some []
        | none => some ((takeClass (fun x => x != ')') r2).1)
    | [] => some []
  | _ => none

/-- Parsed props of one component match (context.py lines 182-189). -/
def parseProps (content : String) (startPos : Nat) : List PropInfo :=
  let window := (content.toList.drop startPos).take 500
  match searchWith propsTextParse window with
  | some cap => scanWith propParse cap
  | none => []

/-- The complexity score of one functional-component match (context.py lines
213-215): hook-usage occurrences in the pre-JSX region plus API-call matches
plus the counts of the textual markers `'if ('` and `'? '`. -/
def componentComplexity (content : String) (startPos : Nat) : Nat :=
  (hookMatches (hookRegion content startPos)).length + (apiMatches content).length +
    countSub content "if (" + countSub content "? "

/-- Shared mutable state of the extractor object touched by the recognizers
(context.py lines 53-81): `hook_usages` and `api_calls` are
`defaultdict(set)` (modelled as insertion-ordered association lists with
duplicate-free value lists), `component_complexity` is a plain list, and
`component_props` and `interfaces` are ordinary dicts. -/
structure InterfaceRecord where
  file_path : String
  parent : Option String
  properties : List PropInfo
deriving Repr, DecidableEq

/-- Shared accumulator state (subset of the `CodeContextExtractor` fields
that the embedded recognizer steps write to). -/
structure ExtractorState where
  hook_usages : List (String × List String)
  api_calls : List (String × List String)
  component_complexity : List FlaggedEntry
  component_props : List (String × List PropInfo)
  interfaces : List (String × InterfaceRecord)
deriving Repr, DecidableEq

/-- The empty extractor state created in `__init__`. -/
def ExtractorState.init : ExtractorState :=
  { hook_usages := [], api_calls := [], component_complexity := []
    component_props := [], interfaces := [] }

/-- Python `set.add` on a set modelled as a duplicate-free list. -/
def setAdd (s : List String) (x : String) : List String :=
  if s.contains x then s else s ++ [x]

/-- Update of a `defaultdict(set)` entry: `m[k].add(x)` (the entry is
created with `{x}` when the key is absent). -/
def mapSetAdd : List (String × List String) → String → String → List (String × List String)
  | [], k, x => [(k, [x])]
  | (k', v) :: rest, k, x =>
    if k' == k then (k', setAdd v x) :: rest else (k', v) :: mapSetAdd rest k x

/-- Python dict assignment `d[k] = v`: overwrites in place when the key
exists (keys are unique in a dict), otherwise appends at the end. -/
def assocSet : List (String × α) → String → α → List (String × α)
  | [], k, v => [(k, v)]
  | (k', v') :: rest, k, v =>
    if k' == k then (k', v) :: rest else (k', v') :: assocSet rest k v

/-- Guard at context.py lines 171-172: context providers are skipped. -/
def skipsName (name : String) : Bool :=
  strEndsWith name "Provider" || strEndsWith name "Context"

/-- The body of the functional-component match loop (context.py lines
169-267) for one regex match `(name, startPos)`: computes the component
record and performs the shared-state writes, in source order (hook-usage
set adds at line 196, api-call set adds at line 211, flagged append at
lines 259-264, props dict write at line 267). -/
def processFuncComponentMatch (st : ExtractorState) (content filePath name : String)
    (startPos : Nat) : ExtractorState × Option ComponentData :=
  if skipsName name then (st, none)
  else
    let props := parseProps content startPos
    let hooksUsed := hookMatches (hookRegion content startPos)
    let st1 := hooksUsed.foldl
      (fun s h => { s with hook_usages := mapSetAdd s.hook_usages name h }) st
    let apis := apiMatches content
    let st2 := apis.foldl
      (fun s a => { s with api_calls := mapSetAdd s.api_calls name a }) st1
    let complexity := componentComplexity content startPos
    let data : ComponentData :=
      { name := name, file_path := filePath, props := props
        hooks_used := hooksUsed, api_calls := apis, complexity := complexity }
    let st3 :=
      if complexity > 10 then
        { st2 with component_complexity :=
            st2.component_complexity ++
              [{ name := name, file_path := filePath, complexity := complexity }] }
      else st2
    let st4 := { st3 with component_props := assocSet st3.component_props name props }
    (st4, some data)

/-! ## Type recognizer global write: `extract_types` (context.py lines 553-565) -/

/-- The global interface-dict write at context.py line 561:
`self.interfaces[interface_name] = {...}` — a dict assignment, so a second
interface with the same name replaces the first entry. -/
def recordInterface (st : ExtractorState) (name : String) (rec : InterfaceRecord) :
    ExtractorState :=
  { st with interfaces := assocSet st.interfaces name rec }

/-! ## Report renderer (context.py lines 1748-1966 and 2308-2653)

The renderer reads many accumulator fields of the extractor object.  The
state below carries the fact categories exercised by the claims; the
sections backed by categories not carried here (state management, complex
types, style patterns, hook analysis, enhanced navigation, security) are
emitted only when their backing collection is non-empty in the source, so
the embedding is faithful for runs in which those categories are empty. -/

/-- A hook record as appended to `self.hooks` (context.py lines 409-416). -/
structure HookRecord where
  name : String
  file_path : String
  params : List PropInfo
  returns : List String
  uses_hooks : List String
  api_calls : List String
deriving Repr, DecidableEq

/-- A service method record (context.py lines 459-463). -/
structure MethodRecord where
  name : String
  params : List PropInfo
  return_type : Option String
deriving Repr, DecidableEq

/-- A service record as appended to `self.services` (context.py lines
490-497). -/
structure ServiceRecord where
  name : String
  file_path : String
  parent_class : Option String
  is_singleton : Bool
  methods : List MethodRecord
  api_endpoints : List String
deriving Repr, DecidableEq

/-- A global API endpoint record (context.py lines 500-505). -/
structure EndpointRecord where
  endpoint : String
  service : String
  file_path : String
deriving Repr, DecidableEq

/-- A navigation route record (`self.navigation_routes`). -/
structure RouteRecord where
  name : String
  component : Option String
  file_path : String
deriving Repr, DecidableEq

/-- An import-dependency record (context.py lines 1046-1050): `dtype` is
one of `named`, `default`, `side_effect`. -/
structure DepRecord where
  dtype : String
  name : String
  source : String
deriving Repr, DecidableEq

/-- An enhanced API endpoint record (`self.enhanced_api_endpoints`). -/
structure EnhancedEndpoint where
  method : String
  endpoint : String
  function : Option String
  return_type : Option String
deriving Repr, DecidableEq

/-- The renderer's view of the accumulated run state. -/
structure RendererState where
  files_count : Nat
  component_complexity : List FlaggedEntry
  hooks : List HookRecord
  services : List ServiceRecord
  api_endpoints : List EndpointRecord
  navigation_routes : List RouteRecord
  database_schemas : List SchemaInfo
  import_dependencies : List DepRecord
  enhanced_api_endpoints : List EnhancedEndpoint
  file_summaries : List (String × List String)
  interfaces : List (String × InterfaceRecord)
  component_hierarchy : List (String × List String)
deriving Repr, DecidableEq

/-- An empty renderer state. -/
def RendererState.empty : RendererState :=
  { files_count := 0, component_complexity := [], hooks := [], services := []
    api_endpoints := [], navigation_routes := [], database_schemas := []
    import_dependencies := [], enhanced_api_endpoints := [], file_summaries := []
    interfaces := [], component_hierarchy := [] }

/-- Python `os.path.basename` for POSIX-style paths. -/
def basename (p : String) : String := (splitOnChar '/' p).getLastD p

/-- Stable descending insertion by a numeric key, matching Python
`sorted(xs, key=..., reverse=True)` (equal keys keep their original order). -/
def insDescBy (key : α → Nat) (x : α) : List α → List α
  | [] => [x]
  | y :: ys => if key y < key x then x :: y :: ys else y :: insDescBy key x ys

/-- Stable descending sort by a numeric key. -/
def sortDescBy (key : α → Nat) (xs : List α) : List α :=
  xs.foldl (fun acc x => insDescBy key x acc) []

/-- Stable ascending insertion by string key, matching Python `sorted` on
dict items (tuples compare by key first). -/
def insAscByStr (key : α → String) (x : α) : List α → List α
  | [] => [x]
  | y :: ys => if key x < key y then x :: y :: ys else y :: insAscByStr key x ys

/-- Stable ascending sort by string key. -/
def sortAscByStr (key : α → String) (xs : List α) : List α :=
  xs.foldl (fun acc x => insAscByStr key x acc) []

/-- Append to a `defaultdict(list)` entry: `m[k].append(x)`. -/
def appendGroup : List (String × List α) → String → α → List (String × List α)
  | [], k, x => [(k, [x])]
  | (k', v) :: rest, k, x =>
    if k' == k then (k', v ++ [x]) :: rest else (k', v) :: appendGroup rest k x

/-- Insertion-ordered grouping, matching `defaultdict(list)` accumulation. -/
def groupByKey (key : α → String) (xs : List α) : List (String × List α) :=
  xs.foldl (fun acc x => appendGroup acc (key x) x) []

/-- Component Complexity section (context.py lines 2318-2336): top 20 by
complexity; the remainder beyond 20 is dropped without a marker. -/
def componentComplexitySection (st : RendererState) : List String :=
  if st.component_complexity.isEmpty then []
  else
    ["=== COMPONENT COMPLEXITY ===",
     "(Components with complexity > 10, sorted by complexity)",
     "Component Name | Complexity | File",
     "--------------|------------|-----"] ++
    ((sortDescBy (fun c => c.complexity) st.component_complexity).take 20 |>.map
      (fun c => c.name ++ " | " ++ toString c.complexity ++ " | " ++ basename c.file_path)) ++
    ["", "Complexity Guidelines:", "- 0-5: Simple component",
     "- 6-10: Moderate complexity", "- 11-20: Complex component",
     "- 21+: Very complex, consider refactoring", ""]

/-- Custom Hooks section (context.py lines 2338-2364). -/
def hooksSection (st : RendererState) : List String :=
  if st.hooks.isEmpty then []
  else
    "=== CUSTOM HOOKS ===" ::
    (st.hooks.flatMap fun h =>
      ["Hook: " ++ h.name ++ " (from " ++ basename h.file_path ++ ")"] ++
      (if h.params.isEmpty then [] else
        "  Parameters:" :: h.params.map (fun p => "    - " ++ p.name ++ ": " ++ p.ptype)) ++
      (if h.returns.isEmpty then [] else
        "  Returns:" :: h.returns.map (fun r => "    - " ++ r)) ++
      (if h.uses_hooks.isEmpty then [] else
        "  Uses hooks:" :: h.uses_hooks.map (fun u => "    - " ++ u)) ++
      (if h.api_calls.isEmpty then [] else
        "  API calls:" :: h.api_calls.map (fun a => "    - " ++ a)) ++
      [""])

/-- Render a method line (context.py lines 2376-2379). -/
def methodLine (m : MethodRecord) : String :=
  let params := String.intercalate ", " (m.params.map (fun p => p.name ++ ": " ++ p.ptype))
  let ret := match m.return_type with | some t => " -> " ++ t | none => ""
  "    - " ++ m.name ++ "(" ++ params ++ ")" ++ ret

/-- Services section (context.py lines 2366-2386). -/
def servicesSection (st : RendererState) : List String :=
  if st.services.isEmpty then []
  else
    "=== SERVICES ===" ::
    (st.services.flatMap fun sv =>
      let singleton := if sv.is_singleton then " (Singleton)" else ""
      let parent := match sv.parent_class with | some p => " extends " ++ p | none => ""
      ["Service: " ++ sv.name ++ singleton ++ parent ++
        " (from " ++ basename sv.file_path ++ ")"] ++
      (if sv.methods.isEmpty then [] else "  Methods:" :: sv.methods.map methodLine) ++
      (if sv.api_endpoints.isEmpty then [] else
        "  API Endpoints:" :: sv.api_endpoints.map (fun e => "    - " ++ e)) ++
      [""])

/-- API Endpoints section (context.py lines 2388-2395). -/
def apiEndpointsSection (st : RendererState) : List String :=
  if st.api_endpoints.isEmpty then []
  else
    "=== API ENDPOINTS ===" ::
    (st.api_endpoints.flatMap fun e =>
      ["Endpoint: " ++ e.endpoint, "  Service: " ++ e.service,
       "  File: " ++ basename e.file_path, ""])

/-- Navigation Routes section (context.py lines 2397-2404). -/
def navigationRoutesSection (st : RendererState) : List String :=
  if st.navigation_routes.isEmpty then []
  else
    "=== NAVIGATION ROUTES ===" ::
    (st.navigation_routes.flatMap fun r =>
      let comp := match r.component with | some c => " -> " ++ c | none => ""
      ["Route: " ++ r.name ++ comp, "  File: " ++ basename r.file_path, ""])

/-- Render one schema's lines (context.py lines 2426-2456). -/
def schemaLines (schema : SchemaInfo) : List String :=
  ["Table: " ++ schema.table_name ++ " (from " ++ basename schema.file_path ++ ")",
   "  Columns:"] ++
  (schema.columns.map fun c =>
    let nullable := if c.nullable then "NULL" else "NOT NULL"
    let dflt := match c.defaultVal with | some d => " DEFAULT " ++ d | none => ""
    let pk := if schema.primary_keys.contains c.name then " PRIMARY KEY" else ""
    "    - " ++ c.name ++ ": " ++ c.colType ++ " " ++ nullable ++ dflt ++ pk) ++
  (if schema.primary_keys.isEmpty then [] else
    "  Primary Keys:" :: schema.primary_keys.map (fun p => "    - " ++ p)) ++
  (if schema.foreign_keys.isEmpty then [] else
    "  Foreign Keys:" :: schema.foreign_keys.map
      (fun fk => "    - " ++ fk.column ++ "  " ++ fk.ref_table ++ "." ++ fk.ref_column)) ++
  (if schema.indices.isEmpty then [] else
    "  Indices:" :: schema.indices.map fun idx =>
      let u := if idx.unique then "UNIQUE " else ""
      "    - " ++ u ++ "INDEX " ++ idx.name ++ " (" ++
        String.intercalate ", " idx.columns ++ ")") ++
  [""]

/-- Database Schemas section (context.py lines 2423-2456). -/
def databaseSchemasSection (st : RendererState) : List String :=
  if st.database_schemas.isEmpty then []
  else "=== DATABASE SCHEMAS ===" :: st.database_schemas.flatMap schemaLines

/-- Module-import type summary (context.py lines 2472-2482). -/
def depTypesSummary (deps : List DepRecord) : String :=
  let named := (deps.filter (fun d => d.dtype == "named")).length
  let dflt := (deps.filter (fun d => d.dtype == "default")).length
  let side := (deps.filter (fun d => d.dtype == "side_effect")).length
  let pieces :=
    (if named > 0 then [toString named ++ " named"] else []) ++
    (if dflt > 0 then [toString dflt ++ " default"] else []) ++
    (if side > 0 then [toString side ++ " side-effect"] else [])
  String.intercalate ", " pieces

/-- Module Dependencies section (context.py lines 2458-2486): top 20 most
imported modules; the remainder is dropped without a marker. -/
def moduleDepsSection (st : RendererState) : List String :=
  if st.import_dependencies.isEmpty then []
  else
    let bySource := groupByKey (fun d => d.source) st.import_dependencies
    let top := (sortDescBy (fun g => g.2.length) bySource).take 20
    "=== MODULE DEPENDENCIES ===" ::
    (top.map fun g =>
      "Module: " ++ g.1 ++ " - " ++ toString g.2.length ++ " imports (" ++
        depTypesSummary g.2 ++ ")") ++
    [""]

/-- Enhanced API Documentation section (context.py lines 2526-2547): groups
endpoints by method, shows the top 10 of each method and appends the
`... and N more` marker when a group is longer than 10. -/
def enhancedApiSection (st : RendererState) : List String :=
  if st.enhanced_api_endpoints.isEmpty then []
  else
    let byMethod := groupByKey (fun e => e.method) st.enhanced_api_endpoints
    "=== ENHANCED API DOCUMENTATION ===" ::
    ((sortAscByStr (fun g => g.1) byMethod).flatMap fun g =>
      (g.1 ++ " Endpoints (" ++ toString g.2.length ++ "):") ::
      ((g.2.take 10).flatMap fun e =>
        ["- " ++ e.endpoint] ++
        (match e.function with | some f => ["  Function: " ++ f] | none => []) ++
        (match e.return_type with | some r => ["  Returns: " ++ r] | none => [])) ++
      (if g.2.length > 10 then
        ["  ... and " ++ toString (g.2.length - 10) ++ " more " ++ g.1 ++ " endpoints"]
       else []) ++
      [""])

/-- File Summaries section (context.py lines 2642-2651). -/
def fileSummariesSection (st : RendererState) : List String :=
  if st.file_summaries.isEmpty then []
  else
    "=== FILE SUMMARIES ===" ::
    (st.file_summaries.flatMap fun fs =>
      ("=== " ++ fs.1 ++ " ===") :: fs.2 ++ ["", String.mk (List.replicate 80 '-'), ""])

/-- All lines of the text report, in section order (context.py lines
2308-2653; `now` stands for `datetime.datetime.now().strftime(...)`). -/
def generateTextLines (now : String) (st : RendererState) : List String :=
  ["=== AI KNOWLEDGE BASE CODE CONTEXT ===", "Generated on: " ++ now,
   "Total files processed: " ++ toString st.files_count, ""] ++
  componentComplexitySection st ++ hooksSection st ++ servicesSection st ++
  apiEndpointsSection st ++ navigationRoutesSection st ++ databaseSchemasSection st ++
  moduleDepsSection st ++ enhancedApiSection st ++ fileSummariesSection st

/-- Text renderer `generate_text_output` (context.py line 2653). -/
def generate_text_output (now : String) (st : RendererState) : String :=
  String.intercalate "\n" (generateTextLines now st)

/-! ### JSON and Markdown renderers (context.py lines 1761-1966)

The JSON encoder reproduces the structure of the `data` dict built at lines
1763-1771 (key order and values); the whitespace layout of
`json.dumps(..., indent=2)` and its escaping of special characters inside
strings are not reproduced. -/

/-- Opening brace as a string. -/
def obs : String := String.mk [obrace]

/-- Closing brace as a string. -/
def cbs : String := String.mk [cbrace]

/-- JSON string literal (escaping omitted). -/
def jstr (s : String) : String := "\"" ++ s ++ "\""

/-- JSON array literal. -/
def jarr (xs : List String) : String := "[" ++ String.intercalate ", " xs ++ "]"

/-- JSON object literal. -/
def jobj (fields : List (String × String)) : String :=
  obs ++ String.intercalate ", " (fields.map (fun kv => jstr kv.1 ++ ": " ++ kv.2)) ++ cbs

/-- JSON encoding of an optional string (`null` for Python `None`). -/
def jopt : Option String → String
  | some s => jstr s
  | none => "null"

/-- JSON renderer `generate_json_output` (context.py lines 1761-1772). -/
def generate_json_output (st : RendererState) : String :=
  jobj
    [("components", jarr (st.component_complexity.map fun c =>
        jobj [("name", jstr c.name), ("file_path", jstr c.file_path),
              ("complexity", toString c.complexity)])),
     ("hooks", jarr (st.hooks.map fun h =>
        jobj [("name", jstr h.name), ("file_path", jstr h.file_path),
              ("params", jarr (h.params.map fun p =>
                jobj [("name", jstr p.name), ("type", jstr p.ptype)])),
              ("returns", jarr (h.returns.map jstr)),
              ("uses_hooks", jarr (h.uses_hooks.map jstr)),
              ("api_calls", jarr (h.api_calls.map jstr))])),
     ("services", jarr (st.services.map fun sv =>
        jobj [("name", jstr sv.name), ("file_path", jstr sv.file_path),
              ("parent_class", jopt sv.parent_class),
              ("is_singleton", if sv.is_singleton then "true" else "false"),
              ("methods", jarr (sv.methods.map fun m =>
                jobj [("name", jstr m.name),
                      ("params", jarr (m.params.map fun p =>
                        jobj [("name", jstr p.name), ("type", jstr p.ptype)])),
                      ("return_type", jopt m.return_type)])),
              ("api_endpoints", jarr (sv.api_endpoints.map jstr))])),
     ("api_endpoints", jarr (st.api_endpoints.map fun e =>
        jobj [("endpoint", jstr e.endpoint), ("service", jstr e.service),
              ("file_path", jstr e.file_path)])),
     ("interfaces", jobj (st.interfaces.map fun kv =>
        (kv.1, jobj [("file_path", jstr kv.2.file_path),
                     ("parent", jopt kv.2.parent),
                     ("properties", jarr (kv.2.properties.map fun p =>
                       jobj [("name", jstr p.name), ("type", jstr p.ptype)]))]))),
     ("navigation_routes", jarr (st.navigation_routes.map fun r =>
        jobj [("name", jstr r.name), ("component", jopt r.component),
              ("file_path", jstr r.file_path)])),
     ("component_hierarchy", jobj (st.component_hierarchy.map fun kv =>
        (kv.1, jarr (kv.2.map jstr))))]

/-- Markdown renderer `generate_markdown_output` (context.py lines
1774-1966), restricted to the sections backed by carried categories (the
type-system and security sections require categories that are empty in all
states considered here and are emitted only when non-empty). -/
def generate_markdown_output (now : String) (st : RendererState) : String :=
  let lines :=
    ["# React Native/TypeScript Codebase Analysis", "Generated on: " ++ now, "",
     "## Component Hierarchy"] ++
    (st.component_hierarchy.flatMap fun kv =>
      ("### " ++ kv.1) :: kv.2.map (fun c => "- " ++ c) ++ [""]) ++
    ["## Complex Components",
     "| Component | Complexity | File |", "|-----------|------------|------|"] ++
    ((sortDescBy (fun c => c.complexity) st.component_complexity).take 20 |>.map fun c =>
      "| " ++ c.name ++ " | " ++ toString c.complexity ++ " | " ++
        basename c.file_path ++ " |") ++
    ["", "## Custom Hooks"] ++
    (st.hooks.flatMap fun h =>
      ("### " ++ h.name) ::
      (if h.params.isEmpty then [] else
        "**Parameters:**" :: h.params.map (fun p => "- " ++ p.name ++ ": " ++ p.ptype)) ++
      (if h.uses_hooks.isEmpty then [] else
        "**Uses hooks:**" :: h.uses_hooks.map (fun u => "- " ++ u)) ++
      [""]) ++
    ["## Navigation Routes"] ++
    (st.navigation_routes.map fun r =>
      let comp := match r.component with | some c => "  " ++ c | none => ""
      "- " ++ r.name ++ comp) ++
    ["", "## API Endpoints"] ++
    (st.api_endpoints.map fun e => "- " ++ e.endpoint ++ " (from " ++ e.service ++ ")") ++
    (if st.database_schemas.isEmpty then [] else
      ["", "## Database Schemas"] ++
      st.database_schemas.flatMap fun schema =>
        ["", "### Table: " ++ schema.table_name, "#### Columns"] ++
        (schema.columns.map fun c =>
          let nullable := if c.nullable then "NULL" else "NOT NULL"
          let dflt := match c.defaultVal with | some d => " DEFAULT " ++ d | none => ""
          let pk := if schema.primary_keys.contains c.name then " PRIMARY KEY" else ""
          "- " ++ c.name ++ ": " ++ c.colType ++ " " ++ nullable ++ dflt ++ pk) ++
        (if schema.primary_keys.isEmpty then [] else
          ["", "#### Primary Keys"] ++ schema.primary_keys.map (fun p => "- " ++ p)) ++
        (if schema.foreign_keys.isEmpty then [] else
          ["", "#### Foreign Keys"] ++ schema.foreign_keys.map
            (fun fk => "- " ++ fk.column ++ "  " ++ fk.ref_table ++ "." ++ fk.ref_column)) ++
        (if schema.indices.isEmpty then [] else
          ["", "#### Indices"] ++ schema.indices.map fun idx =>
            let u := if idx.unique then "UNIQUE " else ""
            "- " ++ u ++ "INDEX " ++ idx.name ++ " (" ++
              String.intercalate ", " idx.columns ++ ")")) ++
    (if st.import_dependencies.isEmpty then [] else
      let bySource := groupByKey (fun d => d.source) st.import_dependencies
      let top := (sortDescBy (fun g => g.2.length) bySource).take 10
      ["", "## Module Dependencies", "", "### Top Imported Modules",
       "| Module | Import Count | Types |", "|--------|--------------|-------|"] ++
      top.map fun g =>
        "| " ++ g.1 ++ " | " ++ toString g.2.length ++ " | " ++ depTypesSummary g.2 ++ " |") ++
    (if st.enhanced_api_endpoints.isEmpty then [] else
      let byMethod := groupByKey (fun e => e.method) st.enhanced_api_endpoints
      ["", "## Enhanced API Documentation",
       "| HTTP Method | Endpoint Count |", "|------------|---------------|"] ++
      ((sortDescBy (fun g => g.2.length) byMethod).map fun g =>
        "| " ++ g.1 ++ " | " ++ toString g.2.length ++ " |") ++
      ["", "### Sample Endpoints"] ++
      ((sortDescBy (fun g => g.2.length) byMethod).take 3).flatMap fun g =>
        ["", "#### " ++ g.1 ++ " Endpoints (showing top 3)"] ++
        (g.2.take 3).flatMap fun e =>
          ["- `" ++ e.endpoint ++ "`"] ++
          (match e.function with | some f => ["  - Function: `" ++ f ++ "`"] | none => []))
  String.intercalate "\n" lines

/-- The four format selectors accepted by the dispatcher and by the
`--format` CLI choice list (context.py lines 1748-1759 and 2843). -/
def formatChoices : List String := ["text", "json", "markdown", "html"]

/-- Output dispatcher `generate_output` (context.py lines 1748-1759).  The
`html` branch calls `self.generate_html_output()`, a method that is defined
nowhere in the source file, so at runtime the attribute lookup raises
`AttributeError`; that exception is modelled as an error result, as is the
`ValueError` raised for an unsupported selector at line 1759. -/
def generate_output (format : String) (now : String) (st : RendererState) :
    Except String String :=
  if format == "text" then .ok (generate_text_output now st)
  else if format == "json" then .ok (generate_json_output st)
  else if format == "markdown" then .ok (generate_markdown_output now st)
  else if format == "html" then
    .error "AttributeError: CodeContextExtractor has no attribute generate_html_output"
  else .error ("Unsupported output format: " ++ format)

/-! ## Run coordinator: `extract_context` (context.py lines 2164-2241)

The per-file loop at lines 2188-2226 is embedded over an abstraction of one
file's behaviour: attempting a file either raises (the `except` at line 2224,
e.g. an unreadable file) or yields the summary lines computed by
`format_file_summary` together with the schema facts that `process_file`
appends to the global `database_schemas` list (line 2105; the other global
appends performed by `process_file` behave identically and are represented
by this one category). -/

/-- Abstracted outcome of attempting one file inside the loop's `try` block. -/
inductive FileOutcome where
  | err : FileOutcome
  | ok (summary : List String) (schemas : List SchemaInfo) : FileOutcome
deriving Repr, DecidableEq

/-- One input file handed to the loop (already collected and sorted by
relative path at line 2178). -/
structure InputFile where
  relPath : String
  outcome : FileOutcome
deriving Repr, DecidableEq

/-- The loop state: the three counters of lines 2184-2186, the running line
total and `file_summaries` (lines 2213-2218), the global schema list, and
`attempted` — an instrumentation counter, not present in the source, that
counts the loop iterations that entered the `try` block (used to state how
the three counters relate to the number of files actually attempted). -/
structure RunState where
  totalLines : Nat
  processed : Nat
  excluded : Nat
  errored : Nat
  attempted : Nat
  summaries : List (String × List String)
  database_schemas : List SchemaInfo
deriving Repr, DecidableEq

/-- The state at loop entry. -/
def RunState.init : RunState :=
  { totalLines := 0, processed := 0, excluded := 0, errored := 0, attempted := 0
    summaries := [], database_schemas := [] }

/-- The per-file loop (context.py lines 2188-2226).  `maxLines` is `Int`
because the CLI accepts any integer for `--max-lines` (line 2841).  Order of
operations per iteration, as in the source: line-limit check at loop top
(line 2190), `process_file` with its global appends (lines 2196, 2105),
`processed_count += 1` (line 2197), empty-summary exclusion (lines
2203-2205), prospective line-limit check (lines 2208-2210), summary append
and line accounting (lines 2213-2218); an exception counts an error and
continues (lines 2224-2226). -/
def runLoop (maxLines : Int) : RunState → List InputFile → RunState
  | s, [] => s
  | s, f :: rest =>
    if (s.totalLines : Int) ≥ maxLines then s
    else
      match f.outcome with
      | .err =>
        runLoop maxLines
          { s with errored := s.errored + 1, attempted := s.attempted + 1 } rest
      | .ok summary schemas =>
        let s1 := { s with database_schemas := s.database_schemas ++ schemas
                           processed := s.processed + 1
                           attempted := s.attempted + 1 }
        if summary.isEmpty then
          runLoop maxLines { s1 with excluded := s1.excluded + 1 } rest
        else if (s1.totalLines : Int) + summary.length + 3 > maxLines then s1
        else
          runLoop maxLines
            { s1 with summaries := s1.summaries ++ [(f.relPath, summary)]
                      totalLines := s1.totalLines + summary.length + 3 } rest

/-- View of the run state handed to the renderer (`files_count` is
`len(self.files)`, the number of collected files, line 2315). -/
def rendererStateOf (s : RunState) (filesCount : Nat) : RendererState :=
  { RendererState.empty with
      files_count := filesCount
      database_schemas := s.database_schemas
      file_summaries := s.summaries }

/-- The reportable-line contribution of one non-excluded file (context.py
line 2218: `len(summary_lines) + 3`). -/
def contribOf (f : InputFile) : Nat :=
  match f.outcome with
  | .err => 0
  | .ok summary _ => summary.length + 3

/-- Cumulative reportable-line total of a file list. -/
def sumContrib (files : List InputFile) : Nat := (files.map contribOf).sum

/-- The schemas a file contributes when processed. -/
def schemasOf (f : InputFile) : List SchemaInfo :=
  match f.outcome with
  | .err => []
  | .ok _ schemas => schemas

/-- The summary entry a file contributes when included. -/
def summaryEntryOf (f : InputFile) : String × List String :=
  match f.outcome with
  | .err => (f.relPath, [])
  | .ok summary _ => (f.relPath, summary)

/-- Whether a file's attempt succeeds with a nonempty summary. -/
def okNonempty (f : InputFile) : Bool :=
  match f.outcome with
  | .err => false
  | .ok summary _ => !summary.isEmpty

/-! ## CLI entry point: `main` (context.py lines 2830-2877)

`argparse` validates `--format` against the choice list (line 2843) and
exits with status 2 before any file is touched when the selector is
invalid; `--max-lines` is parsed as a plain `int` with no sign check (line
2841).  Inside `extract_context`, the rendering/writing step is wrapped in
`try/except` that only prints (lines 2234-2241), so a rendering failure
still lets the run finish with exit status 0 and no output written. -/

/-- Result of a whole run: process exit status, final loop state, and the
output string when one was produced. -/
def mainRun (format : String) (maxLines : Int) (files : List InputFile)
    (now : String) : Nat × RunState × Option String :=
  if formatChoices.contains format then
    let st := runLoop maxLines RunState.init files
    match generate_output format now (rendererStateOf st files.length) with
    | .ok out => (0, st, some out)
    | .error _ => (0, st, none)
  else (2, RunState.init, none)

/-! ## Helper lemmas -/

/-- Unfolding equation: the loop over no files returns the state. -/
theorem runLoop_nil (K : Int) (s : RunState) : runLoop K s [] = s := rfl

/-- Unfolding equation: the loop-top line-limit check (line 2190). -/
theorem runLoop_cons_halt (K : Int) (s : RunState) (f : InputFile) (rest : List InputFile)
    (h : (s.totalLines : Int) ≥ K) : runLoop K s (f :: rest) = s := by
  simp [runLoop, h]

/-- Unfolding equation: a failing file counts one error and continues
(lines 2224-2226). -/
theorem runLoop_cons_err (K : Int) (s : RunState) (rel : String) (rest : List InputFile)
    (h : ¬ (s.totalLines : Int) ≥ K) :
    runLoop K s (⟨rel, .err⟩ :: rest) =
      runLoop K { s with errored := s.errored + 1, attempted := s.attempted + 1 } rest := by
  simp [runLoop, h]

/-- Unfolding equation: an empty summary counts as excluded after the file
was already processed (lines 2196-2205). -/
theorem runLoop_cons_empty (K : Int) (s : RunState) (rel : String) (summary : List String)
    (schemas : List SchemaInfo) (rest : List InputFile)
    (h : ¬ (s.totalLines : Int) ≥ K) (he : summary.isEmpty = true) :
    runLoop K s (⟨rel, .ok summary schemas⟩ :: rest) =
      runLoop K
        { s with database_schemas := s.database_schemas ++ schemas
                 processed := s.processed + 1, attempted := s.attempted + 1
                 excluded := s.excluded + 1 } rest := by
  simp [runLoop, h, he]

/-- Unfolding equation: the prospective line-limit check fires and the loop
stops after processing the file (lines 2208-2210). -/
theorem runLoop_cons_break (K : Int) (s : RunState) (rel : String) (summary : List String)
    (schemas : List SchemaInfo) (rest : List InputFile)
    (h : ¬ (s.totalLines : Int) ≥ K) (he : summary.isEmpty = false)
    (hl : (s.totalLines : Int) + summary.length + 3 > K) :
    runLoop K s (⟨rel, .ok summary schemas⟩ :: rest) =
      { s with database_schemas := s.database_schemas ++ schemas
               processed := s.processed + 1, attempted := s.attempted + 1 } := by
  simp [runLoop, h, he, hl]

/-- Unfolding equation: the file's summary is taken (lines 2213-2218). -/
theorem runLoop_cons_take (K : Int) (s : RunState) (rel : String) (summary : List String)
    (schemas : List SchemaInfo) (rest : List InputFile)
    (h : ¬ (s.totalLines : Int) ≥ K) (he : summary.isEmpty = false)
    (hl : ¬ (s.totalLines : Int) + summary.length + 3 > K) :
    runLoop K s (⟨rel, .ok summary schemas⟩ :: rest) =
      runLoop K
        { s with database_schemas := s.database_schemas ++ schemas
                 processed := s.processed + 1, attempted := s.attempted + 1
                 summaries := s.summaries ++ [(rel, summary)]
                 totalLines := s.totalLines + summary.length + 3 } rest := by
  simp [runLoop, h, he, hl]

/-- Counter bookkeeping of the per-file loop, relative to an arbitrary
starting state: the processed and errored counters together advance exactly
as often as the `try` block is entered, the number of attempts is bounded by
the number of files, and the excluded counter never advances without the
processed counter advancing. -/
theorem runLoop_counts (K : Int) (files : List InputFile) : ∀ (s : RunState),
    (runLoop K s files).processed + (runLoop K s files).errored + s.attempted =
      (runLoop K s files).attempted + s.processed + s.errored ∧
    (runLoop K s files).attempted ≤ s.attempted + files.length ∧
    (runLoop K s files).excluded + s.processed ≤
      s.excluded + (runLoop K s files).processed := by
  induction files with
  | nil =>
    intro s
    rw [runLoop_nil]
    exact ⟨by omega, by simp only [List.length_nil]; omega, by omega⟩
  | cons f rest ih =>
    intro s
    rcases f with ⟨rel, oc⟩
    by_cases hc : (s.totalLines : Int) ≥ K
    · rw [runLoop_cons_halt K s _ rest hc]
      exact ⟨by omega, by simp only [List.length_cons]; omega, by omega⟩
    · cases oc with
      | err =>
        rw [runLoop_cons_err K s rel rest hc]
        obtain ⟨h1, h2, h3⟩ := ih { s with errored := s.errored + 1, attempted := s.attempted + 1 }
        dsimp only at h1 h2 h3
        exact ⟨by omega, by simp only [List.length_cons]; omega, by omega⟩
      | ok summary schemas =>
        cases he : summary.isEmpty with
        | true =>
          rw [runLoop_cons_empty K s rel summary schemas rest hc he]
          obtain ⟨h1, h2, h3⟩ := ih
            { s with database_schemas := s.database_schemas ++ schemas
                     processed := s.processed + 1, attempted := s.attempted + 1
                     excluded := s.excluded + 1 }
          dsimp only at h1 h2 h3
          exact ⟨by omega, by simp only [List.length_cons]; omega, by omega⟩
        | false =>
          by_cases hl : (s.totalLines : Int) + summary.length + 3 > K
          · rw [runLoop_cons_break K s rel summary schemas rest hc he hl]
            dsimp only
            exact ⟨by omega, by simp only [List.length_cons]; omega, by omega⟩
          · rw [runLoop_cons_take K s rel summary schemas rest hc he hl]
            obtain ⟨h1, h2, h3⟩ := ih
              { s with database_schemas := s.database_schemas ++ schemas
                       processed := s.processed + 1, attempted := s.attempted + 1
                       summaries := s.summaries ++ [(rel, summary)]
                       totalLines := s.totalLines + summary.length + 3 }
            dsimp only at h1 h2 h3
            exact ⟨by omega, by simp only [List.length_cons]; omega, by omega⟩

/-- Characterization of a run that hits the prospective line-limit check at
a specific file: for files `pre ++ fi :: post` where every file in `pre`
and `fi` succeeds with a nonempty summary, the running total stays strictly
below the budget throughout `pre` and first exceeds it at `fi`, the loop
takes every summary of `pre`, processes `fi` (appending its schema facts)
but drops its summary, and stops without touching `post`. -/
theorem runLoop_budget_char (K : Int) (pre : List InputFile) : ∀ (fi : InputFile)
    (post : List InputFile) (s : RunState),
    (∀ f ∈ pre, okNonempty f = true) → okNonempty fi = true →
    ((s.totalLines : Int) + sumContrib pre < K) →
    ((s.totalLines : Int) + sumContrib pre + contribOf fi > K) →
    runLoop K s (pre ++ fi :: post) =
      { totalLines := s.totalLines + sumContrib pre
        processed := s.processed + pre.length + 1
        excluded := s.excluded
        errored := s.errored
        attempted := s.attempted + pre.length + 1
        summaries := s.summaries ++ pre.map summaryEntryOf
        database_schemas := s.database_schemas ++ (pre ++ [fi]).flatMap schemasOf } := by
  induction pre with
  | nil =>
    intro fi post s hpre hfi hlt hgt
    rcases fi with ⟨rel, oc⟩
    cases oc with
    | err => simp [okNonempty] at hfi
    | ok summary schemas =>
      simp only [sumContrib, List.map_nil, List.sum_nil, Nat.cast_zero, add_zero] at hlt hgt
      simp only [contribOf] at hgt
      have he : summary.isEmpty = false := by
        simp only [okNonempty, Bool.not_eq_true'] at hfi; exact hfi
      rw [List.nil_append,
        runLoop_cons_break K s rel summary schemas post (by omega) he (by omega)]
      simp [sumContrib, summaryEntryOf, schemasOf]
  | cons p pre2 ih =>
    intro fi post s hpre hfi hlt hgt
    rcases p with ⟨rel, oc⟩
    cases oc with
    | err => simp [okNonempty] at hpre
    | ok summary schemas =>
      have hpe : summary.isEmpty = false := by
        have := hpre ⟨rel, .ok summary schemas⟩ (List.mem_cons_self _ _)
        simp only [okNonempty, Bool.not_eq_true'] at this; exact this
      have hcontrib : sumContrib (⟨rel, .ok summary schemas⟩ :: pre2) =
          (summary.length + 3) + sumContrib pre2 := by
        simp [sumContrib, contribOf]
      rw [hcontrib] at hlt hgt
      have hnotTop : ¬ (s.totalLines : Int) ≥ K := by push_cast at hlt; omega
      have hnotBreak : ¬ (s.totalLines : Int) + summary.length + 3 > K := by
        push_cast at hlt; omega
      rw [List.cons_append, runLoop_cons_take K s rel summary schemas _ hnotTop hpe hnotBreak]
      have ih' := ih fi post
        { s with database_schemas := s.database_schemas ++ schemas
                 processed := s.processed + 1, attempted := s.attempted + 1
                 summaries := s.summaries ++ [(rel, summary)]
                 totalLines := s.totalLines + summary.length + 3 }
        (fun f hf => hpre f (List.mem_cons_of_mem _ hf)) hfi
        (by dsimp only; push_cast at hlt ⊢; omega)
        (by dsimp only; push_cast at hgt ⊢; omega)
      dsimp only at ih'
      rw [ih']
      simp only [RunState.mk.injEq, hcontrib, List.length_cons, List.map_cons,
        List.flatMap_cons, List.cons_append, List.append_assoc]
      refine ⟨by omega, by omega, trivial, trivial, by omega, ?_, ?_⟩
      · simp [summaryEntryOf]
      · simp [schemasOf]

/-- The hook-usage fold of `processFuncComponentMatch` only writes the
`hook_usages` field. -/
theorem hookFold_preserves (n : String) (l : List String) : ∀ (s : ExtractorState),
    (l.foldl (fun s h => { s with hook_usages := mapSetAdd s.hook_usages n h }) s).api_calls =
        s.api_calls ∧
    (l.foldl (fun s h => { s with hook_usages := mapSetAdd s.hook_usages n h }) s).component_complexity =
        s.component_complexity ∧
    (l.foldl (fun s h => { s with hook_usages := mapSetAdd s.hook_usages n h }) s).component_props =
        s.component_props ∧
    (l.foldl (fun s h => { s with hook_usages := mapSetAdd s.hook_usages n h }) s).interfaces =
        s.interfaces := by
  induction l with
  | nil => intro s; simp
  | cons x xs ih =>
    intro s
    simpa using ih { s with hook_usages := mapSetAdd s.hook_usages n x }

/-- The api-call fold of `processFuncComponentMatch` only writes the
`api_calls` field. -/
theorem apiFold_preserves (n : String) (l : List String) : ∀ (s : ExtractorState),
    (l.foldl (fun s a => { s with api_calls := mapSetAdd s.api_calls n a }) s).hook_usages =
        s.hook_usages ∧
    (l.foldl (fun s a => { s with api_calls := mapSetAdd s.api_calls n a }) s).component_complexity =
        s.component_complexity ∧
    (l.foldl (fun s a => { s with api_calls := mapSetAdd s.api_calls n a }) s).component_props =
        s.component_props ∧
    (l.foldl (fun s a => { s with api_calls := mapSetAdd s.api_calls n a }) s).interfaces =
        s.interfaces := by
  induction l with
  | nil => intro s; simp
  | cons x xs ih =>
    intro s
    simpa using ih { s with api_calls := mapSetAdd s.api_calls n x }

/-- Grouping a list whose keys are all `m` yields the single group `(m, xs)`
(relative to a nonempty accumulator already holding the key). -/
theorem groupFold_const (key : α → String) (m : String) (xs : List α) :
    ∀ (g : List α), (∀ x ∈ xs, key x = m) →
    xs.foldl (fun acc x => appendGroup acc (key x) x) [(m, g)] = [(m, g ++ xs)] := by
  induction xs with
  | nil => intro g _; simp
  | cons x rest ih =>
    intro g hk
    have hx : key x = m := hk x (List.mem_cons_self _ _)
    simp only [List.foldl_cons, appendGroup, hx, beq_self_eq_true, if_pos]
    rw [ih (g ++ [x]) (fun y hy => hk y (List.mem_cons_of_mem _ hy))]
    simp

/-- Grouping a nonempty list whose keys are all `m`. -/
theorem groupByKey_const (key : α → String) (m : String) (x : α) (xs : List α)
    (hk : ∀ y ∈ x :: xs, key y = m) :
    groupByKey key (x :: xs) = [(m, x :: xs)] := by
  have hx : key x = m := hk x (List.mem_cons_self _ _)
  simp only [groupByKey, List.foldl_cons, appendGroup, hx]
  rw [groupFold_const key m xs [x] (fun y hy => hk y (List.mem_cons_of_mem _ hy))]
  simp

/-- Writing the same dict key twice keeps only the second value. -/
theorem assocSet_collapse (m : List (String × α)) (k : String) (v1 v2 : α) :
    assocSet (assocSet m k v1) k v2 = assocSet m k v2 := by
  induction m with
  | nil => simp [assocSet]
  | cons kv rest ih =>
    by_cases hk : kv.1 == k
    · simp [assocSet, hk]
    · simp only [assocSet]
      rw [if_neg (by simpa using hk)]
      simp only [assocSet]
      rw [if_neg (by simpa using hk), if_neg (by simpa using hk), ih]

/-! ## Claim C1: processed/excluded/errored counts -/

/-- A single file that processes successfully but yields no summary lines
(e.g. a source file in which no recognizer finds anything). -/
def c1CexFiles : List InputFile := [⟨"empty.ts", .ok [] []⟩]

/-- C1 counterexample: the claim says processed + excluded + errored equals
the number of input files with each file counted exactly once; but a file
whose summary is empty is counted in `processed` (line 2197) and then again
in `excluded` (line 2204), so for one such file the three counts sum to 2,
not 1. -/
theorem extract_loop_counts_cex :
    ¬ ((runLoop 15000 RunState.init c1CexFiles).processed +
        (runLoop 15000 RunState.init c1CexFiles).excluded +
        (runLoop 15000 RunState.init c1CexFiles).errored = c1CexFiles.length) := by
  decide

/-- C1 amended: `processed + errored` equals the number of files whose
attempt was entered (which is at most the number of input files, and is
smaller when the line budget stops the loop early), each attempted file
counted exactly once between those two; `excluded` is not disjoint from
`processed` — it recounts processed files whose summary was empty, so it is
bounded by `processed`. -/
theorem extract_loop_counts_amended (K : Int) (files : List InputFile) :
    (runLoop K RunState.init files).processed + (runLoop K RunState.init files).errored =
      (runLoop K RunState.init files).attempted ∧
    (runLoop K RunState.init files).attempted ≤ files.length ∧
    (runLoop K RunState.init files).excluded ≤ (runLoop K RunState.init files).processed := by
  obtain ⟨h1, h2, h3⟩ := runLoop_counts K files RunState.init
  simp only [RunState.init] at h1 h2 h3 ⊢
  exact ⟨by omega, by omega, by omega⟩

/-! ## Claim C2: line-budget termination -/

/-- A single file whose summary (10 lines, plus the 3 separator lines)
exceeds a budget of 5 and which contributes one schema fact. -/
def c2CexFiles : List InputFile :=
  [⟨"big.ts", .ok (List.replicate 10 "l") [⟨"T", [], [], [], [], "big.ts"⟩]⟩]

/-- C2 counterexample: the claim says the over-budget file is skipped
entirely, with no part of it in any section of the output.  With budget 5,
the file's summary is dropped (the summaries section is empty), yet the
file was already fully processed before the budget check (line 2196 runs
before line 2208), so its schema fact appears in the rendered output's
database-schemas section. -/
theorem budget_skip_cex :
    (runLoop 5 RunState.init c2CexFiles).summaries = [] ∧
    ((generateTextLines "" (rendererStateOf (runLoop 5 RunState.init c2CexFiles) 1)).contains
      "Table: T (from big.ts)") = true := by
  exact ⟨rfl, rfl⟩

/-- C2 amended: when the cumulative reportable-line total first exceeds the
budget at file `fi` (all earlier files `pre` succeeding with nonempty
summaries), the output's summaries are exactly those of `pre` — files after
`fi` contribute nothing — but `fi` is not skipped entirely: it has already
been processed, so the facts it contributed (its database schemas) are in
the accumulated state, and it is counted as processed. -/
theorem budget_termination_amended (K : Int) (pre : List InputFile) (fi : InputFile)
    (post : List InputFile)
    (hpre : ∀ f ∈ pre, okNonempty f = true) (hfi : okNonempty fi = true)
    (hlt : (sumContrib pre : Int) < K)
    (hgt : (sumContrib pre : Int) + contribOf fi > K) :
    (runLoop K RunState.init (pre ++ fi :: post)).summaries = pre.map summaryEntryOf ∧
    (runLoop K RunState.init (pre ++ fi :: post)).database_schemas =
      (pre ++ [fi]).flatMap schemasOf ∧
    (runLoop K RunState.init (pre ++ fi :: post)).processed = pre.length + 1 := by
  have h := runLoop_budget_char K pre fi post RunState.init hpre hfi
    (by simpa [RunState.init] using hlt) (by simpa [RunState.init] using hgt)
  rw [h]
  simp [RunState.init]

/-- Budget-exceeding concrete run for the C2 witness: `pre` contributes
1 + 3 = 4 reportable lines (< 6) and the next file would bring the total to
9 (> 6). -/
def preW : List InputFile := [⟨"a.ts", .ok ["l1"] []⟩]

/-- The file at which the budget is first exceeded; it carries a schema. -/
def fiW : InputFile := ⟨"b.ts", .ok ["x", "y"] [⟨"T", [], [], [], [], "b.ts"⟩]⟩

/-- Files after the break point. -/
def postW : List InputFile := [⟨"c.ts", .ok ["z"] []⟩]

/-- C2 witness: the amended theorem applied at a concrete run. -/
theorem budget_termination_witness :
    (runLoop 6 RunState.init (preW ++ fiW :: postW)).summaries = preW.map summaryEntryOf ∧
    (runLoop 6 RunState.init (preW ++ fiW :: postW)).database_schemas =
      (preW ++ [fiW]).flatMap schemasOf ∧
    (runLoop 6 RunState.init (preW ++ fiW :: postW)).processed = preW.length + 1 :=
  budget_termination_amended 6 preW fiW postW (by decide) (by decide) (by decide) (by decide)

/-! ## Claim C3: schema recognizer round-trip -/

/-- The synthetic table-definition statement from the spec's testable
property. -/
def c3Input : String :=
  "CREATE TABLE IF NOT EXISTS Users (id TEXT PRIMARY KEY, orgId TEXT NOT NULL, FOREIGN KEY (orgId) REFERENCES Orgs(id))"

/-- C3 counterexample: the claim says the recognizer reports `id` as not
nullable (implied by PRIMARY KEY) and `orgId` as not nullable.  The code
sets `nullable` to `False` only when the literal text `NOT NULL` occurs in
the column line (lines 968-971), so `id` is reported nullable: the claimed
(name, nullable) view `[("id", false), ("orgId", false)]` does not hold. -/
theorem schema_pk_nullable_cex :
    ¬ (((extract_database_schema c3Input "db.ts").map
          (fun s => s.columns.map (fun c => (c.name, c.nullable)))) =
        [[("id", false), ("orgId", false)]]) := by
  decide

/-- C3 amended: on the synthetic statement the recognizer reports exactly
the columns id:TEXT and orgId:TEXT, the primary-key set [id], and exactly
one foreign-key record (orgId, Orgs, id) — but `id` is reported as nullable,
since the PRIMARY KEY marker does not imply NOT NULL in this recognizer. -/
theorem schema_roundtrip_amended :
    extract_database_schema c3Input "db.ts" =
      [{ table_name := "Users"
         columns := [⟨"id", "TEXT", true, none⟩, ⟨"orgId", "TEXT", false, none⟩]
         primary_keys := ["id"]
         foreign_keys := [⟨"orgId", "Orgs", "id"⟩]
         indices := []
         file_path := "db.ts" }] := by
  decide

/-! ## Claim C4: truncation remainder markers -/

/-- A renderer state whose component-complexity list has 21 entries, one
more than the section's top-20 limit. -/
def c4CexState : RendererState :=
  { RendererState.empty with
      component_complexity := List.replicate 21 ⟨"C", "f.tsx", 12⟩ }

/-- C4 counterexample: the claim says every tabular section whose backing
collection exceeds its top-N limit renders a remainder marker equal to
`len - N`.  The component-complexity section truncates to 20 (line 2326)
without any marker: with 21 flagged components no line of the rendered
output contains a `... and` remainder marker at all. -/
theorem truncation_marker_cex :
    c4CexState.component_complexity.length = 21 ∧
    (generateTextLines "" c4CexState).all (fun l => !containsSub l "... and") = true := by
  exact ⟨by decide, by decide⟩

/-- C4 amended: only some truncated sections emit remainder markers.  The
enhanced-API section does: whenever its endpoints (here all of one method
`m`) number more than its top-10 limit, the output contains the marker line
with count `len - 10`.  (The component-complexity, module-dependencies and
complex-interfaces sections truncate silently, as the counterexample
shows.) -/
theorem truncation_marker_amended (eps : List EnhancedEndpoint) (m now : String)
    (hm : ∀ e ∈ eps, e.method = m) (hlen : 10 < eps.length) :
    ("  ... and " ++ toString (eps.length - 10) ++ " more " ++ m ++ " endpoints") ∈
      generateTextLines now
        { RendererState.empty with enhanced_api_endpoints := eps } := by
  match eps, hlen with
  | e :: rest, hlen =>
    set st : RendererState :=
      { RendererState.empty with enhanced_api_endpoints := e :: rest } with hst
    have hgroups : groupByKey (fun x => x.method) st.enhanced_api_endpoints =
        [(m, e :: rest)] := by
      exact groupByKey_const _ m e rest (by simpa [hst] using hm)
    have hmem : ("  ... and " ++ toString ((e :: rest).length - 10) ++ " more " ++ m ++
        " endpoints") ∈ enhancedApiSection st := by
      simp only [enhancedApiSection, hst, hgroups]
      simp only [List.isEmpty_cons, Bool.false_eq_true, if_false, sortAscByStr,
        List.foldl_cons, List.foldl_nil, insAscByStr, List.flatMap_cons,
        List.flatMap_nil, List.append_nil]
      have hifpos : (if (e :: rest).length > 10 then
          ["  ... and " ++ toString ((e :: rest).length - 10) ++ " more " ++ m ++
            " endpoints"] else []) =
          ["  ... and " ++ toString ((e :: rest).length - 10) ++ " more " ++ m ++
            " endpoints"] := if_pos hlen
      simp only [List.mem_cons, List.mem_append, hifpos, List.mem_singleton]
      tauto
    simp only [generateTextLines, List.mem_append]
    tauto

/-- Eleven endpoints of one method for the C4 witness. -/
def c4WitnessEndpoints : List EnhancedEndpoint :=
  List.replicate 11 ⟨"GET", "/x", none, none⟩

/-- C4 witness: the amended theorem applied at eleven GET endpoints. -/
theorem truncation_marker_witness :
    ("  ... and " ++ toString (c4WitnessEndpoints.length - 10) ++ " more " ++ "GET" ++
        " endpoints") ∈
      generateTextLines ""
        { RendererState.empty with enhanced_api_endpoints := c4WitnessEndpoints } :=
  truncation_marker_amended c4WitnessEndpoints "GET" ""
    (by intro e he; simpa using (List.eq_of_mem_replicate he) ▸ rfl) (by decide)

/-! ## Claim C10: foreign keys with surplus local columns -/

/-- C10: for a FOREIGN KEY constraint whose local-column list is longer than
its referenced-column list, one record is emitted per local column — none is
dropped — with each in-range local column paired with the referenced column
of the same position and each surplus local column paired with the last
referenced column (context.py line 949). -/
theorem foreign_key_surplus (fkCols refCols : List String) (refTable : String)
    (hne : refCols ≠ []) (hlen : refCols.length < fkCols.length) :
    (foreignKeyRecords fkCols refTable refCols).length = fkCols.length ∧
    (∀ i, i < refCols.length →
      (foreignKeyRecords fkCols refTable refCols).getD i ⟨"", "", ""⟩ =
        ⟨fkCols.getD i "", refTable, refCols.getD i ""⟩) ∧
    (∀ i, refCols.length ≤ i → i < fkCols.length →
      (foreignKeyRecords fkCols refTable refCols).getD i ⟨"", "", ""⟩ =
        ⟨fkCols.getD i "", refTable, refCols.getLast hne⟩) := by
  refine ⟨by simp [foreignKeyRecords], ?_, ?_⟩
  · intro i hi
    have hi' : i < fkCols.length := by omega
    simp [foreignKeyRecords, List.getD, List.getElem?_map, List.getElem?_range, hi', hi]
  · intro i hge hlt
    have hnotlt : ¬ i < refCols.length := by omega
    simp [foreignKeyRecords, List.getD, List.getElem?_map, List.getElem?_range, hlt, hnotlt,
      List.getLastD_eq_getLast?, List.getLast?_eq_getLast _ hne]

/-- C10 witness: three local columns against one referenced column. -/
theorem foreign_key_surplus_witness :
    (foreignKeyRecords ["a", "b", "c"] "T" ["x"]).length = 3 ∧
    (foreignKeyRecords ["a", "b", "c"] "T" ["x"]).getD 2 ⟨"", "", ""⟩ =
      ⟨"c", "T", "x"⟩ := by
  obtain ⟨h1, _, h3⟩ :=
    foreign_key_surplus ["a", "b", "c"] ["x"] "T" (by decide) (by decide)
  exact ⟨h1, by simpa using h3 2 (by decide) (by decide)⟩

/-- Characterization of one functional-component match step (for a
non-skipped name): which shared-state fields it writes and what it returns.
The returned component record depends only on the text, path, name and
offset — not on the prior state. -/
theorem processFuncComponentMatch_state (st : ExtractorState)
    (content filePath name : String) (startPos : Nat) (h : skipsName name = false) :
    (processFuncComponentMatch st content filePath name startPos).1.component_complexity =
      st.component_complexity ++
        (if componentComplexity content startPos > 10 then
          [⟨name, filePath, componentComplexity content startPos⟩] else []) ∧
    (processFuncComponentMatch st content filePath name startPos).1.component_props =
      assocSet st.component_props name (parseProps content startPos) ∧
    (processFuncComponentMatch st content filePath name startPos).1.interfaces =
      st.interfaces ∧
    (processFuncComponentMatch st content filePath name startPos).2 =
      some { name := name, file_path := filePath
             props := parseProps content startPos
             hooks_used := hookMatches (hookRegion content startPos)
             api_calls := apiMatches content
             complexity := componentComplexity content startPos } := by
  obtain ⟨ha1, ha2, ha3, ha4⟩ :=
    hookFold_preserves name (hookMatches (hookRegion content startPos)) st
  obtain ⟨hb1, hb2, hb3, hb4⟩ :=
    apiFold_preserves name (apiMatches content)
      ((hookMatches (hookRegion content startPos)).foldl
        (fun s h => { s with hook_usages := mapSetAdd s.hook_usages name h }) st)
  by_cases hc : componentComplexity content startPos > 10
  · simp only [processFuncComponentMatch, h, Bool.false_eq_true, if_false, if_pos hc]
    exact ⟨by rw [hb2, ha2], by rw [hb3, ha3], by rw [hb4, ha4], trivial⟩
  · simp only [processFuncComponentMatch, h, Bool.false_eq_true, if_false, if_neg hc]
    exact ⟨by rw [hb2, ha2]; simp, by rw [hb3, ha3], by rw [hb4, ha4], trivial⟩

/-! ## Claim C5: complexity score and flagging threshold -/

/-- Modelled from the spec's words ("count of distinct state/reusable-unit
usages"): the complexity score with the hook-usage occurrences
deduplicated, for comparison with the code's score. -/
def specComplexityDistinct (content : String) (startPos : Nat) : Nat :=
  (hookMatches (hookRegion content startPos)).dedup.length + (apiMatches content).length +
    countSub content "if (" + countSub content "? "

/-- A component body that uses the same reusable-state unit twice before
its JSX return. -/
def c5DupContent : String :=
  "const Widget = () => \x7b useFoo(); useFoo(); return ( x ); \x7d"

/-- The spec's synthetic declaration: three distinct reusable-state-unit
usages (one occurrence each), two call sites, one conditional marker. -/
def c5SixContent : String :=
  "const Widget = () => \x7b useAlpha(); useBeta(); useGamma(); client.get(u); fetch(u); const x = a ? b : c; return ( d ); \x7d"

/-- The same declaration with five more conditional markers. -/
def c5ElevenContent : String :=
  c5SixContent ++ " if (a) if (b) if (c) if (d) if (e)"

/-- C5 counterexample: the claim says the score equals the count of
DISTINCT reusable-state-unit usages plus call sites plus conditional
markers.  The code counts hook-usage occurrences (line 195 appends every
regex match), so a component using the same hook twice scores 2 where the
distinct count is 1. -/
theorem complexity_distinct_cex :
    ¬ (componentComplexity c5DupContent 0 = specComplexityDistinct c5DupContent 0) := by
  decide

set_option maxRecDepth 10000 in
/-- C5 amended: the score counts hook-usage occurrences (not distinct
usages) plus call-site pattern matches (once per matching pattern family)
plus the conditional markers; a declaration is appended to the global
flagged list exactly when its score exceeds 10.  The spec's synthetic
example behaves as stated: score 6 is not flagged, and five more
conditional markers bring it to 11 and into the flagged list. -/
theorem complexity_score_amended :
    (∀ (st : ExtractorState) (content filePath name : String) (startPos : Nat),
      (processFuncComponentMatch st content filePath name startPos).1.component_complexity =
        st.component_complexity ++
          (if skipsName name then []
           else if componentComplexity content startPos > 10 then
             [⟨name, filePath, componentComplexity content startPos⟩]
           else [])) ∧
    componentComplexity c5SixContent 0 = 6 ∧
    (processFuncComponentMatch ExtractorState.init c5SixContent "f.tsx" "Widget"
        0).1.component_complexity = [] ∧
    componentComplexity c5ElevenContent 0 = 11 ∧
    (processFuncComponentMatch ExtractorState.init c5ElevenContent "f.tsx" "Widget"
        0).1.component_complexity = [⟨"Widget", "f.tsx", 11⟩] := by
  refine ⟨?_, by decide, by decide, by decide, by decide⟩
  intro st content filePath name startPos
  by_cases h : skipsName name = true
  · simp [processFuncComponentMatch, h]
  · have h' : skipsName name = false := by simpa using h
    obtain ⟨hcc, -, -, -⟩ := processFuncComponentMatch_state st content filePath name startPos h'
    rw [hcc, h']
    simp

/-! ## Claim C6: recognizer determinism and side effects -/

/-- C6 counterexample: the claim says a recognizer invocation modifies no
state outside its return value.  Running the component recognizer step on
an empty extractor state changes the state: it records the component's hook
usages and writes its props entry (lines 196 and 267). -/
theorem recognizer_side_effect_cex :
    ¬ ((processFuncComponentMatch ExtractorState.init c5DupContent "f.tsx" "Widget" 0).1 =
        ExtractorState.init) := by
  decide

/-- C6 amended: the recognizer step is deterministic and total, and its
returned fact record depends only on the file text, path, and match — not
on the accumulated state; but it is not side-effect-free: every non-skipped
match writes the shared `component_props` dict entry (and the hook-usage,
api-call, and flagged-list accumulators). -/
theorem recognizer_purity_amended :
    (∀ (st st' : ExtractorState) (content filePath name : String) (startPos : Nat),
      (processFuncComponentMatch st content filePath name startPos).2 =
        (processFuncComponentMatch st' content filePath name startPos).2) ∧
    (∀ (st : ExtractorState) (content filePath name : String) (startPos : Nat),
      (processFuncComponentMatch st content filePath name startPos).1.component_props =
        if skipsName name then st.component_props
        else assocSet st.component_props name (parseProps content startPos)) := by
  constructor
  · intro st st' content filePath name startPos
    by_cases h : skipsName name = true
    · simp [processFuncComponentMatch, h]
    · have h' : skipsName name = false := by simpa using h
      obtain ⟨-, -, -, h2⟩ := processFuncComponentMatch_state st content filePath name startPos h'
      obtain ⟨-, -, -, h2'⟩ := processFuncComponentMatch_state st' content filePath name startPos h'
      rw [h2, h2']
  · intro st content filePath name startPos
    by_cases h : skipsName name = true
    · simp [processFuncComponentMatch, h]
    · have h' : skipsName name = false := by simpa using h
      obtain ⟨-, hp, -, -⟩ := processFuncComponentMatch_state st content filePath name startPos h'
      rw [hp, h']
      simp

/-! ## Claim C7: append-only merges versus dict overwrites -/

/-- A first interface fact named Foo. -/
def ifaceRec1 : InterfaceRecord := ⟨"a.ts", none, []⟩

/-- A second, different interface fact also named Foo. -/
def ifaceRec2 : InterfaceRecord := ⟨"b.ts", none, [⟨"x", "string"⟩]⟩

/-- C7 counterexample: the claim says the index never overwrites a fact and
never unifies two facts with the same name.  Recording two different
interface facts under the same name leaves a single entry holding only the
second fact (line 561 is a dict assignment): the first fact is gone. -/
theorem index_overwrite_cex :
    (recordInterface (recordInterface ExtractorState.init "Foo" ifaceRec1) "Foo"
        ifaceRec2).interfaces = [("Foo", ifaceRec2)] ∧
    ifaceRec1 ≠ ifaceRec2 := by
  decide

/-- C7 amended: list-valued categories are append-only (the flagged
complexity list only ever grows by a suffix), but the name-keyed dicts are
not: recording a second interface fact under an existing name yields
exactly the state reached by recording only the second fact — the earlier
fact is overwritten, and facts with identical name are unified into one
entry. -/
theorem index_merge_amended :
    (∀ (st : ExtractorState) (content filePath name : String) (startPos : Nat),
      ∃ tail, (processFuncComponentMatch st content filePath name
          startPos).1.component_complexity = st.component_complexity ++ tail) ∧
    (∀ (st : ExtractorState) (name : String) (r1 r2 : InterfaceRecord),
      (recordInterface (recordInterface st name r1) name r2).interfaces =
        (recordInterface st name r2).interfaces) := by
  constructor
  · intro st content filePath name startPos
    by_cases h : skipsName name = true
    · exact ⟨[], by simp [processFuncComponentMatch, h]⟩
    · have h' : skipsName name = false := by simpa using h
      obtain ⟨hcc, -, -, -⟩ := processFuncComponentMatch_state st content filePath name startPos h'
      exact ⟨_, hcc⟩
  · intro st name r1 r2
    simp [recordInterface, assocSet_collapse]

/-! ## Claim C8: the four output encodings -/

/-- Whether an `Except` result is a success. -/
def exceptOk : Except ε α → Bool
  | .ok _ => true
  | .error _ => false

/-- C8: rendering succeeds exactly for the text, json and markdown
selectors.  The `html` selector — although accepted by the dispatcher's
branch list and by the CLI choice list — fails, because
`generate_html_output` is defined nowhere in the source, so the branch at
line 1757 raises `AttributeError`; every selector outside the choice list
fails with the `ValueError` of line 1759.  This contradicts the claim that
all four encodings render without raising. -/
theorem generate_output_formats (f now : String) (st : RendererState) :
    exceptOk (generate_output f now st) = true ↔
      (f = "text" ∨ f = "json" ∨ f = "markdown") := by
  by_cases h1 : f = "text"
  · simp [generate_output, exceptOk, h1]
  · by_cases h2 : f = "json"
    · simp [generate_output, exceptOk, h1, h2]
    · by_cases h3 : f = "markdown"
      · simp [generate_output, exceptOk, h1, h2, h3]
      · by_cases h4 : f = "html"
        · simp [generate_output, exceptOk, h1, h2, h3, h4]
        · simp [generate_output, exceptOk, h1, h2, h3, h4]

/-! ## Claim C9: configuration-error handling -/

/-- One ordinary input file for the C9 runs. -/
def c9CexFiles : List InputFile := [⟨"a.ts", .ok ["x"] []⟩]

/-- C9 counterexample: the claim says a negative line budget causes the run
to fail fast with a non-zero exit.  With `--max-lines -1` the run instead
completes normally: exit status 0, zero files processed (the loop-top
budget check trips immediately), and an output string is still produced. -/
theorem config_error_cex :
    (mainRun "text" (-1) c9CexFiles "").1 = 0 ∧
    (mainRun "text" (-1) c9CexFiles "").2.1.processed = 0 ∧
    ((mainRun "text" (-1) c9CexFiles "").2.2).isSome = true := by
  refine ⟨rfl, rfl, ?_⟩
  decide

/-- C9 amended: an invalid format selector does fail fast — argparse
rejects it with exit status 2 before any file is touched; but a negative
line budget is not validated: the run proceeds, processes no file, renders
its (empty) report and exits 0. -/
theorem config_error_amended :
    (∀ (f : String) (m : Int) (files : List InputFile) (now : String),
      ¬ formatChoices.contains f = true →
        mainRun f m files now = (2, RunState.init, none)) ∧
    (∀ (m : Int) (files : List InputFile) (now : String), m < 0 →
      (mainRun "text" m files now).1 = 0 ∧
      (mainRun "text" m files now).2.1 = RunState.init) := by
  constructor
  · intro f m files now hf
    have hf' : f ∉ formatChoices := by simpa using hf
    simp [mainRun, hf']
  · intro m files now hm
    have hloop : runLoop m RunState.init files = RunState.init := by
      cases files with
      | nil => rfl
      | cons f rest =>
        refine runLoop_cons_halt m RunState.init f rest ?_
        simp only [RunState.init]
        omega
    simp [mainRun, formatChoices, hloop, generate_output]

/-- C9 witness: the amended theorem applied at the selector `yaml` (not in
the choice list) and at budget `-1`. -/
theorem config_error_witness :
    mainRun "yaml" 100 c9CexFiles "" = (2, RunState.init, none) ∧
    (mainRun "text" (-1) c9CexFiles "").1 = 0 ∧
    (mainRun "text" (-1) c9CexFiles "").2.1 = RunState.init := by
  refine ⟨config_error_amended.1 "yaml" 100 c9CexFiles "" (by decide), ?_, ?_⟩
  · exact (config_error_amended.2 (-1) c9CexFiles "" (by decide)).1
  · exact (config_error_amended.2 (-1) c9CexFiles "" (by decide)).2

end ContextExtractor
